import Mathlib

/-!
# cerene-go-api: the route and recommended-stop repositories

A shallow embedding of `internal/models/route_repository.go`,
`internal/models/stop_repository.go` and the handlers of
`internal/server/routes.go` that call them.

The Go code talks to a relational store through `database/sql`.  The embedding
therefore has three layers:

* the part of `database/sql` the repositories use (`QueryContext`,
  `QueryRowContext`, `ExecContext`, `Rows`, `Row.Scan`, `sql.ErrNoRows`,
  `errors.Is`), with the ways a call can fail made explicit as a `Fault`;
* the meaning of each SQL statement that appears in the sources, as a function
  on the two tables `routes` and `recommended_stops`;
* the repository methods themselves, written statement by statement after the
  Go source.

Numbers: Go `int`/`int64` identifiers are `Int` (no arithmetic is done on
them); `float64` coordinates and distances are exact rationals.  A Go result
`(*T, error)` is a pair of options, `none` standing for `nil`.
-/

namespace Cerene

/-! ## Go errors -/

/-- Go `error` values that can reach the repositories. -/
inductive GoError where
  /-- The sentinel `sql.ErrNoRows`. -/
  | ErrNoRows
  /-- An error raised by the driver or by the store while running a statement. -/
  | store (msg : String)
  /-- The value of `fmt.Errorf(msg + ": %w", inner)`. -/
  | wrapped (msg : String) (inner : GoError)
deriving DecidableEq, Repr

namespace errors

/-- Go `errors.Is(err, target)`: `err` or one of the errors it wraps equals `target`. -/
def Is : GoError → GoError → Bool
  | .wrapped m inner, target => decide (GoError.wrapped m inner = target) || Is inner target
  | e, target => decide (e = target)

end errors

/-! ## The part of `database/sql` used by the repositories -/

/-- What goes wrong inside the store or the driver during one call.
`none`: nothing.  `statement`: the statement itself fails.  `scan n`: `Scan` on
the row at position `n` fails (for instance a NULL read into a `string`).
`iteration n`: the connection breaks after `n` rows were delivered, so `Next()`
reports `false` and `Err()` holds the error. -/
inductive Fault where
  | none
  | statement (msg : String)
  | scan (n : Nat) (msg : String)
  | iteration (n : Nat) (msg : String)
deriving DecidableEq, Repr

namespace sql

/-- A `*sql.Rows` cursor: the rows `Next()` will still deliver, each paired with
the outcome `Scan` has on it, and the value `Err()` reports once `Next()` has
returned `false`. -/
structure Rows (α : Type) where
  pending : List (Except GoError α)
  err : Option GoError

/-- Marks the row at position `n` as one on which `Scan` fails. -/
def failScanAt {α : Type} (n : Nat) (e : GoError) : List α → List (Except GoError α)
  | [] => []
  | a :: rest =>
    match n with
    | 0 => Except.error e :: rest.map Except.ok
    | k + 1 => Except.ok a :: failScanAt k e rest

/-- The call `db.QueryContext(ctx, query, args...)`.  `result` is what the store
computes for the statement: the result set, or the error the statement raises. -/
def QueryContext {α : Type} (result : Except GoError (List α)) (f : Fault) :
    Except GoError (Rows α) :=
  match f with
  | Fault.statement msg => Except.error (GoError.store msg)
  | Fault.none => result.map fun rows => { pending := rows.map Except.ok, err := Option.none }
  | Fault.scan n msg =>
    result.map fun rows => { pending := failScanAt n (GoError.store msg) rows, err := Option.none }
  | Fault.iteration n msg =>
    result.map fun rows =>
      { pending := (rows.take n).map Except.ok, err := some (GoError.store msg) }

/-- The call `db.QueryRowContext(ctx, query, args...)`: the error, if any, is kept
inside the returned `*sql.Row` until `Scan` is called. -/
def QueryRowContext {α : Type} (result : Except GoError (List α)) (f : Fault) :
    Except GoError (Rows α) :=
  QueryContext result f

/-- The method `(*sql.Row).Scan`: the deferred query error if there is one; when
`Next()` is false, `Err()` if it is set and `sql.ErrNoRows` otherwise; else the
outcome of scanning the first row. -/
def Row.Scan {α : Type} : Except GoError (Rows α) → Except GoError α
  | Except.error e => Except.error e
  | Except.ok rs =>
    match rs.pending with
    | [] =>
      match rs.err with
      | some e => Except.error e
      | Option.none => Except.error GoError.ErrNoRows
    | r :: _ => r

/-- The call `db.ExecContext(ctx, query, args...)` with the result value
discarded.  `stmt` is the effect of the statement on the database; a statement
that fails leaves the database as it was. -/
def ExecContext {σ : Type} (db : σ) (stmt : Except GoError σ) (f : Fault) : σ × Option GoError :=
  match f with
  | Fault.statement msg => (db, some (GoError.store msg))
  | _ =>
    match stmt with
    | Except.ok db1 => (db1, Option.none)
    | Except.error e => (db, some e)

end sql

/-- The loop `for rows.Next() ... Scan ... append` of `GetNearby` and
`GetByRouteID`: a failing `Scan` returns its error at once, and when `Next()`
turns false the collected slice is returned. -/
def scanLoop {α : Type} : List (Except GoError α) → List α → Except GoError (List α)
  | [], acc => Except.ok acc
  | Except.error e :: _, _ => Except.error e
  | Except.ok a :: rest, acc => scanLoop rest (acc ++ [a])

/-! ## Geometry -/

/-- A coordinate pair `(x, y)`; with reference system 4326, `x` is the longitude
and `y` the latitude, both in degrees. -/
abbrev Point := ℚ × ℚ

/-- The geometry values the two tables hold. -/
inductive Geometry where
  | point (p : Point)
  | linestring (pts : List Point)
deriving DecidableEq, Repr

/-- Square of the planar distance between two coordinate pairs. -/
def sqDistance (p q : Point) : ℚ :=
  (p.1 - q.1) ^ 2 + (p.2 - q.2) ^ 2

/-- Square of the planar distance from `p` to the segment from `a` to `b`. -/
def sqDistanceSegment (p a b : Point) : ℚ :=
  if sqDistance a b = 0 then sqDistance p a
  else
    let t := ((p.1 - a.1) * (b.1 - a.1) + (p.2 - a.2) * (b.2 - a.2)) / sqDistance a b
    if t ≤ 0 then sqDistance p a
    else if 1 ≤ t then sqDistance p b
    else sqDistance p (a.1 + t * (b.1 - a.1), a.2 + t * (b.2 - a.2))

/-- Square of the planar distance from `p` to a chain of segments; `none` for
the empty chain. -/
def sqDistancePath (p : Point) : List Point → Option ℚ
  | [] => none
  | [a] => some (sqDistance p a)
  | a :: b :: rest =>
    match sqDistancePath p (b :: rest) with
    | some d => some (min (sqDistanceSegment p a b) d)
    | none => some (sqDistanceSegment p a b)

/-- Modelled from the spec: the schema is not among the sources; the spec gives
`routes.path` as `geometry(linestring,4326)` and `recommended_stops.location` as
`geometry(point,4326)`.  On the `geometry` type the store's `ST_Distance` and
`ST_DWithin` are planar and work in the units of the reference system, which
for 4326 are degrees.  This is the square of `ST_Distance(g, p)`; `none`
stands for the NULL the store gives for an empty geometry. -/
def Geometry.sqDistance : Geometry → Point → Option ℚ
  | Geometry.point q, p => some (Cerene.sqDistance p q)
  | Geometry.linestring pts, p => sqDistancePath p pts

/-- Modelled from the spec: the GeometryCodec of section 4.1, which in the
sources is the pair of store functions `ST_GeomFromText(text, 4326)` and
`ST_AsText(geometry)`.  `geomFromText` yields `none` for text that is not a
well-formed geometry. -/
structure GeometryCodec where
  geomFromText : String → Option Geometry
  asText : Geometry → String

/-! ## A concrete codec for the text format

The repository functions below take the codec as an argument, since it lives in
the store and not in the repository.  The codec of this section is the one the
worked examples are evaluated with. -/

namespace wkt

/-- Splits a character list at every occurrence of `sep`. -/
def splitOn (sep : Char) : List Char → List (List Char)
  | [] => [[]]
  | c :: cs =>
    if c = sep then [] :: splitOn sep cs
    else
      match splitOn sep cs with
      | [] => [[c]]
      | w :: ws => (c :: w) :: ws

/-- The number written by a list of decimal digits, most significant first,
continuing from `acc`; `none` if a character is not a digit. -/
def readDigits : List Char → Nat → Option Nat
  | [], acc => some acc
  | c :: cs, acc => if c.isDigit then readDigits cs (acc * 10 + (c.toNat - 48)) else none

/-- Reads a signed decimal numeral such as `-122.35`. -/
def readDecimal (cs : List Char) : Option ℚ :=
  let neg := cs.head? = some '-'
  let body := if neg then cs.tail else cs
  match splitOn '.' body with
  | [ip] =>
    if ip = [] then none
    else (readDigits ip 0).map fun i => mkRat (if neg then -(i : Int) else i) 1
  | [ip, fp] =>
    if ip = [] then none
    else
      match readDigits ip 0, readDigits fp 0 with
      | some i, some fr =>
        let m : Int := ((i * 10 ^ fp.length + fr : Nat) : Int)
        some (mkRat (if neg then -m else m) (10 ^ fp.length))
      | _, _ => none
  | _ => none

/-- Reads a coordinate pair `x y`. -/
def readPoint (cs : List Char) : Option Point :=
  match (splitOn ' ' cs).filter fun w => decide (w ≠ []) with
  | [a, b] =>
    match readDecimal a, readDecimal b with
    | some x, some y => some (x, y)
    | _, _ => none
  | _ => none

/-- Reads every coordinate pair of a comma-separated list. -/
def readPoints : List (List Char) → Option (List Point)
  | [] => some []
  | w :: ws =>
    match readPoint w, readPoints ws with
    | some p, some ps => some (p :: ps)
    | _, _ => none

/-- The text between the parentheses that follow keyword `kw`. -/
def body (kw : List Char) (cs : List Char) : Option (List Char) :=
  if kw.isPrefixOf cs then
    match (cs.drop kw.length).dropWhile fun c => decide (c = ' ') with
    | '(' :: rest =>
      match rest.reverse with
      | ')' :: inner => some inner.reverse
      | _ => none
    | _ => none
  else none

/-- Reads `POINT(x y)` or `LINESTRING(x1 y1, x2 y2, ...)`. -/
def geomFromText (text : String) : Option Geometry :=
  match body "POINT".toList text.toList with
  | some inner => (readPoint inner).map Geometry.point
  | none =>
    match body "LINESTRING".toList text.toList with
    | some inner =>
      match readPoints (splitOn ',' inner) with
      | some pts => if 2 ≤ pts.length then some (Geometry.linestring pts) else none
      | none => none
    | none => none

/-- The decimal digits of `n`, most significant first, at most `fuel` of them. -/
def digits : Nat → Nat → List Char → List Char
  | 0, _, acc => acc
  | fuel + 1, n, acc =>
    let acc1 := Char.ofNat (48 + n % 10) :: acc
    if n / 10 = 0 then acc1 else digits fuel (n / 10) acc1

/-- Drops the zeros at the end of a digit list. -/
def trimZeros (ds : List Char) : List Char :=
  (ds.reverse.dropWhile fun c => decide (c = '0')).reverse

/-- Writes a coordinate with at most fifteen decimals and no trailing zeros. -/
def writeDecimal (q : ℚ) : List Char :=
  let scaled := (q.num.natAbs * 10 ^ 15 + q.den / 2) / q.den
  let fp := digits 15 (scaled % 10 ^ 15) []
  let frac := trimZeros (List.replicate (15 - fp.length) '0' ++ fp)
  let text := digits 40 (scaled / 10 ^ 15) [] ++ (if frac = [] then [] else '.' :: frac)
  if q.num < 0 ∧ scaled ≠ 0 then '-' :: text else text

/-- Writes a coordinate pair `x y`. -/
def writePoint (p : Point) : List Char :=
  writeDecimal p.1 ++ ' ' :: writeDecimal p.2

/-- Writes a geometry the way `ST_AsText` does. -/
def asText : Geometry → String
  | Geometry.point p => String.mk ("POINT(".toList ++ writePoint p ++ [')'])
  | Geometry.linestring pts =>
    String.mk ("LINESTRING(".toList ++ [','].intercalate (pts.map writePoint) ++ [')'])

end wkt

/-- A codec for the decimal subset of the text format: `POINT(x y)` and
`LINESTRING(x1 y1, x2 y2, ...)` with signed decimal numerals, written back with
at most fifteen decimals and a bare comma between the points, as `ST_AsText`
writes them. -/
def wktCodec : GeometryCodec :=
  { geomFromText := wkt.geomFromText, asText := wkt.asText }

/-! ## Data model (`internal/models/models.go`) -/

/-- A `time.Time` value, as an abstract instant. -/
abbrev Time := Nat

/-- Go `models.Route`. -/
structure Route where
  ID : Int
  Name : String
  Description : String
  Path : String
  CreatedAt : Time
deriving DecidableEq, Repr

/-- Go `models.RecommendedStop`. -/
structure RecommendedStop where
  ID : Int
  RouteID : Int
  Name : String
  Type_ : String
  Description : String
  Location : String
  CreatedAt : Time
deriving DecidableEq, Repr

/-! ## The store -/

/-- A row of table `routes`. -/
structure RouteRow where
  id : Int
  name : String
  description : String
  path : Geometry
  created_at : Time
deriving DecidableEq, Repr

/-- A row of table `recommended_stops`. -/
structure StopRow where
  id : Int
  route_id : Int
  name : String
  type : String
  description : String
  location : Geometry
  created_at : Time
deriving DecidableEq, Repr

/-- Modelled from the spec: the schema is not among the sources.  Both tables
in storage order, and the sequence that assigns `recommended_stops.id`
(identifiers are unique in each table; no foreign key is declared between the
tables, the reference from a stop to its route being a weak one). -/
structure DB where
  routes : List RouteRow
  recommended_stops : List StopRow
  recommended_stops_id_seq : Int
deriving DecidableEq, Repr

/-! ## The SQL statements of `route_repository.go` -/

/-- The select list `id, name, description, ST_AsText(path), created_at`, which
`Scan` copies field by field into a `Route`. -/
def RouteRow.project (codec : GeometryCodec) (row : RouteRow) : Route :=
  { ID := row.id
    Name := row.name
    Description := row.description
    Path := codec.asText row.path
    CreatedAt := row.created_at }

/-- The expression `ST_GeomFromText(text, 4326)` stored into a column of type
`geometry(linestring,4326)`: malformed text and text of another geometry type
are both rejected. -/
def lineFromText (codec : GeometryCodec) (text : String) : Except GoError Geometry :=
  match codec.geomFromText text with
  | some (Geometry.linestring pts) => Except.ok (Geometry.linestring pts)
  | some (Geometry.point _) => Except.error (GoError.store "geometry type does not match column type")
  | none => Except.error (GoError.store "parse error - invalid geometry")

/-- The statement
`INSERT INTO routes (id, name, description, path, created_at)
 VALUES ($1, $2, $3, ST_GeomFromText($4, 4326), NOW())`. -/
def insertRoute (codec : GeometryCodec) (now : Time) (id : Int) (name description path : String)
    (db : DB) : Except GoError DB :=
  match lineFromText codec path with
  | Except.error e => Except.error e
  | Except.ok g =>
    if db.routes.any (fun row => decide (row.id = id)) then
      Except.error (GoError.store "duplicate key value violates unique constraint")
    else
      Except.ok { db with
        routes := db.routes ++
          [{ id := id, name := name, description := description, path := g, created_at := now }] }

/-- The statement
`SELECT id, name, description, ST_AsText(path), created_at FROM routes WHERE id = $1`. -/
def selectRouteByID (codec : GeometryCodec) (id : Int) (db : DB) : List Route :=
  (db.routes.filter fun row => decide (row.id = id)).map (RouteRow.project codec)

/-- The rows kept by `WHERE ST_DWithin(path, p, d)`, each with the square of
`ST_Distance(path, p)`, the key of the `ORDER BY`.  A row is kept when its
distance is at most `d`, that is when the square is at most `d ^ 2`. -/
def withinRows (p : Point) (d : ℚ) (rows : List RouteRow) : List (ℚ × RouteRow) :=
  rows.filterMap fun row =>
    match row.path.sqDistance p with
    | some d2 => if d2 ≤ d ^ 2 then some (d2, row) else none
    | none => none

/-- The rows of
`WHERE ST_DWithin(path, p, d) ORDER BY ST_Distance(path, p) ASC`.  The statement
names no second sort key, so rows at equal distance stay in the order in which
the scan of the table meets them. -/
def nearbyRows (p : Point) (d : ℚ) (rows : List RouteRow) : List RouteRow :=
  ((withinRows p d rows).insertionSort fun a b => a.1 ≤ b.1).map Prod.snd

/-- The statement
`SELECT id, name, description, ST_AsText(path), created_at FROM routes
 WHERE ST_DWithin(path, ST_SetSRID(ST_MakePoint($1, $2), 4326), $3)
 ORDER BY ST_Distance(path, ST_SetSRID(ST_MakePoint($1, $2), 4326)) ASC`.
`ST_DWithin` raises an error for a negative tolerance on the first row it is
evaluated on. -/
def selectNearby (codec : GeometryCodec) (x y d : ℚ) (db : DB) : Except GoError (List Route) :=
  if d < 0 ∧ db.routes ≠ [] then
    Except.error (GoError.store "Tolerance cannot be less than zero")
  else
    Except.ok ((nearbyRows (x, y) d db.routes).map (RouteRow.project codec))

/-- The statement
`UPDATE routes SET name = $2, description = $3, path = ST_GeomFromText($4, 4326)
 WHERE id = $1`.  The geometry argument is evaluated once for the statement. -/
def updateRoute (codec : GeometryCodec) (id : Int) (name description path : String) (db : DB) :
    Except GoError DB :=
  match lineFromText codec path with
  | Except.error e => Except.error e
  | Except.ok g =>
    Except.ok { db with
      routes := db.routes.map fun row =>
        if row.id = id then { row with name := name, description := description, path := g }
        else row }

/-- The statement `DELETE FROM routes WHERE id = $1`. -/
def deleteRoute (id : Int) (db : DB) : Except GoError DB :=
  Except.ok { db with routes := db.routes.filter fun row => decide (row.id ≠ id) }

/-! ## `route_repository.go` -/

namespace routeRepository

/-- Go `(*routeRepository).Create`. -/
def Create (codec : GeometryCodec) (db : DB) (f : Fault) (now : Time) (route : Route) :
    DB × Option GoError :=
  sql.ExecContext db
    (insertRoute codec now route.ID route.Name route.Description route.Path db) f

/-- Go `(*routeRepository).GetByID`. -/
def GetByID (codec : GeometryCodec) (db : DB) (f : Fault) (id : Int) :
    Option Route × Option GoError :=
  let row := sql.QueryRowContext (Except.ok (selectRouteByID codec id db)) f
  match sql.Row.Scan row with
  | Except.error err => (none, some err)
  | Except.ok route => (some route, none)

/-- Go `(*routeRepository).GetNearby`.  The query receives the arguments in the
order `lng, lat, distance`. -/
def GetNearby (codec : GeometryCodec) (db : DB) (f : Fault) (lat lng distance : ℚ) :
    Option (List Route) × Option GoError :=
  match sql.QueryContext (selectNearby codec lng lat distance db) f with
  | Except.error err => (none, some err)
  | Except.ok rows =>
    match scanLoop rows.pending [] with
    | Except.error err => (none, some err)
    | Except.ok routes => (some routes, none)

/-- Go `(*routeRepository).Update`. -/
def Update (codec : GeometryCodec) (db : DB) (f : Fault) (route : Route) : DB × Option GoError :=
  sql.ExecContext db
    (updateRoute codec route.ID route.Name route.Description route.Path db) f

/-- Go `(*routeRepository).Delete`. -/
def Delete (db : DB) (f : Fault) (id : Int) : DB × Option GoError :=
  sql.ExecContext db (deleteRoute id db) f

end routeRepository

/-! ## The SQL statements of `stop_repository.go` -/

/-- The select list
`id, route_id, name, type, description, ST_AsText(location), created_at`. -/
def StopRow.project (codec : GeometryCodec) (row : StopRow) : RecommendedStop :=
  { ID := row.id
    RouteID := row.route_id
    Name := row.name
    Type_ := row.type
    Description := row.description
    Location := codec.asText row.location
    CreatedAt := row.created_at }

/-- The expression `ST_GeomFromText(text, 4326)` stored into a column of type
`geometry(point,4326)`. -/
def pointFromText (codec : GeometryCodec) (text : String) : Except GoError Geometry :=
  match codec.geomFromText text with
  | some (Geometry.point p) => Except.ok (Geometry.point p)
  | some (Geometry.linestring _) =>
    Except.error (GoError.store "geometry type does not match column type")
  | none => Except.error (GoError.store "parse error - invalid geometry")

/-- The statement
`INSERT INTO recommended_stops (route_id, name, type, description, location, created_at)
 VALUES ($1, $2, $3, $4, ST_GeomFromText($5, 4326), NOW())`; the identifier comes
from the sequence of the table. -/
def insertStop (codec : GeometryCodec) (now : Time) (route_id : Int)
    (name type description location : String) (db : DB) : Except GoError DB :=
  match pointFromText codec location with
  | Except.error e => Except.error e
  | Except.ok g =>
    if db.recommended_stops.any (fun row => decide (row.id = db.recommended_stops_id_seq)) then
      Except.error (GoError.store "duplicate key value violates unique constraint")
    else
      Except.ok { db with
        recommended_stops := db.recommended_stops ++
          [{ id := db.recommended_stops_id_seq, route_id := route_id, name := name, type := type,
             description := description, location := g, created_at := now }]
        recommended_stops_id_seq := db.recommended_stops_id_seq + 1 }

/-- The statement
`SELECT id, route_id, name, type, description, ST_AsText(location), created_at
 FROM recommended_stops WHERE id = $1`. -/
def selectStopByID (codec : GeometryCodec) (id : Int) (db : DB) : List RecommendedStop :=
  (db.recommended_stops.filter fun row => decide (row.id = id)).map (StopRow.project codec)

/-- The statement
`SELECT id, route_id, name, type, description, ST_AsText(location), created_at
 FROM recommended_stops WHERE route_id = $1`. -/
def selectStopsByRouteID (codec : GeometryCodec) (routeID : Int) (db : DB) :
    List RecommendedStop :=
  (db.recommended_stops.filter fun row => decide (row.route_id = routeID)).map
    (StopRow.project codec)

/-- The statement
`UPDATE recommended_stops
 SET name = $2, type = $3, description = $4, location = ST_GeomFromText($5, 4326)
 WHERE id = $1`.  The geometry argument is evaluated once for the statement. -/
def updateStop (codec : GeometryCodec) (id : Int) (name type description location : String)
    (db : DB) : Except GoError DB :=
  match pointFromText codec location with
  | Except.error e => Except.error e
  | Except.ok g =>
    Except.ok { db with
      recommended_stops := db.recommended_stops.map fun row =>
        if row.id = id then
          { row with name := name, type := type, description := description, location := g }
        else row }

/-- The statement `DELETE FROM recommended_stops WHERE id = $1`. -/
def deleteStop (id : Int) (db : DB) : Except GoError DB :=
  Except.ok { db with
    recommended_stops := db.recommended_stops.filter fun row => decide (row.id ≠ id) }

/-! ## `stop_repository.go` -/

namespace recommendedStopRepository

/-- Go `(*recommendedStopRepository).Create`. -/
def Create (codec : GeometryCodec) (db : DB) (f : Fault) (now : Time) (stop : RecommendedStop) :
    DB × Option GoError :=
  match sql.ExecContext db
      (insertStop codec now stop.RouteID stop.Name stop.Type_ stop.Description stop.Location db)
      f with
  | (db1, some err) => (db1, some (GoError.wrapped "failed to insert recommended stop" err))
  | (db1, none) => (db1, none)

/-- Go `(*recommendedStopRepository).GetByID`. -/
def GetByID (codec : GeometryCodec) (db : DB) (f : Fault) (id : Int) :
    Option RecommendedStop × Option GoError :=
  let row := sql.QueryRowContext (Except.ok (selectStopByID codec id db)) f
  match sql.Row.Scan row with
  | Except.error err =>
    if errors.Is err GoError.ErrNoRows then (none, none)
    else (none, some err)
  | Except.ok stop => (some stop, none)

/-- Go `(*recommendedStopRepository).GetByRouteID`.  A nil slice is the empty list. -/
def GetByRouteID (codec : GeometryCodec) (db : DB) (f : Fault) (routeID : Int) :
    List RecommendedStop × Option GoError :=
  match sql.QueryContext (Except.ok (selectStopsByRouteID codec routeID db)) f with
  | Except.error err => ([], some err)
  | Except.ok rows =>
    match scanLoop rows.pending [] with
    | Except.error err => ([], some err)
    | Except.ok stops => (stops, none)

/-- Go `(*recommendedStopRepository).Update`. -/
def Update (codec : GeometryCodec) (db : DB) (f : Fault) (stop : RecommendedStop) :
    DB × Option GoError :=
  sql.ExecContext db
    (updateStop codec stop.ID stop.Name stop.Type_ stop.Description stop.Location db) f

/-- Go `(*recommendedStopRepository).Delete`. -/
def Delete (db : DB) (f : Fault) (id : Int) : DB × Option GoError :=
  sql.ExecContext db (deleteStop id db) f

end recommendedStopRepository

/-! ## The handlers of `routes.go` that read one entity -/

/-- What a handler sends back: the status code and the JSON body, which is
either an error message or a value. -/
structure Response (α : Type) where
  status : Nat
  body : Except String α

namespace FiberServer

/-- Go `(*FiberServer).getRouteByIDHandler`; `param` is the outcome of
`strconv.Atoi(c.Params("id"))`, `none` when the text is not a number. -/
def getRouteByIDHandler (codec : GeometryCodec) (db : DB) (f : Fault) (param : Option Int) :
    Response Route :=
  match param with
  | none => { status := 400, body := Except.error "Invalid route ID" }
  | some id =>
    match routeRepository.GetByID codec db f id with
    | (_, some _) => { status := 500, body := Except.error "Failed to fetch route" }
    | (none, none) => { status := 404, body := Except.error "Route not found" }
    | (some route, none) => { status := 200, body := Except.ok route }

/-- Go `(*FiberServer).getRecommendedStopByIDHandler`; `param` as above. -/
def getRecommendedStopByIDHandler (codec : GeometryCodec) (db : DB) (f : Fault)
    (param : Option Int) : Response RecommendedStop :=
  match param with
  | none => { status := 400, body := Except.error "Invalid stop ID" }
  | some id =>
    match recommendedStopRepository.GetByID codec db f id with
    | (_, some _) => { status := 500, body := Except.error "Failed to fetch stop" }
    | (none, none) => { status := 404, body := Except.error "Stop not found" }
    | (some stop, none) => { status := 200, body := Except.ok stop }

end FiberServer

/-! ## The handlers of `routes.go` that update one entity -/

/-- The fields a request body carries for a `models.Route`, under their JSON
names; `none` for a field the body omits. -/
structure RouteBody where
  id : Option Int
  name : Option String
  description : Option String
  path : Option String
  created_at : Option Time
deriving DecidableEq, Repr

/-- What `c.BodyParser(&route)` leaves in `var route models.Route`: the fields
the body carries, and the zero value of the type for every other field. -/
def RouteBody.parse (b : RouteBody) : Route :=
  { ID := b.id.getD 0
    Name := b.name.getD ""
    Description := b.description.getD ""
    Path := b.path.getD ""
    CreatedAt := b.created_at.getD 0 }

/-- The fields a request body carries for a `models.RecommendedStop`, under
their JSON names; `none` for a field the body omits. -/
structure StopBody where
  id : Option Int
  route_id : Option Int
  name : Option String
  type : Option String
  description : Option String
  location : Option String
  created_at : Option Time
deriving DecidableEq, Repr

/-- What `c.BodyParser(&stop)` leaves in `var stop models.RecommendedStop`. -/
def StopBody.parse (b : StopBody) : RecommendedStop :=
  { ID := b.id.getD 0
    RouteID := b.route_id.getD 0
    Name := b.name.getD ""
    Type_ := b.type.getD ""
    Description := b.description.getD ""
    Location := b.location.getD ""
    CreatedAt := b.created_at.getD 0 }

/-- The part of a `*fiber.Ctx` the handlers read: the path parameters behind
`c.Params`, and the body as `c.BodyParser` decodes it, `none` when it cannot be
decoded. -/
structure Ctx (β : Type) where
  Params : String → String
  Body : Option β

/-- The context of a request that matched `Put("/routes/:id", ...)` or
`Put("/stops/:id", ...)` in `RegisterFiberRoutes`: the parameter `id` is the
last segment of the path. -/
def putRequest {β : Type} (id : String) (body : Option β) : Ctx β :=
  { Params := fun name => if name = "id" then id else "", Body := body }

namespace FiberServer

/-- Go `(*FiberServer).updateRouteHandler`: the new database and the response;
the JSON object with the key `message` is its message. -/
def updateRouteHandler (codec : GeometryCodec) (db : DB) (f : Fault) (c : Ctx RouteBody) :
    DB × Response String :=
  match c.Body with
  | none => (db, { status := 400, body := Except.error "Invalid request body" })
  | some b =>
    match routeRepository.Update codec db f b.parse with
    | (db1, some _) => (db1, { status := 500, body := Except.error "Failed to update route" })
    | (db1, none) => (db1, { status := 200, body := Except.ok "Route updated successfully" })

/-- Go `(*FiberServer).updateRecommendedStopHandler`. -/
def updateRecommendedStopHandler (codec : GeometryCodec) (db : DB) (f : Fault)
    (c : Ctx StopBody) : DB × Response String :=
  match c.Body with
  | none => (db, { status := 400, body := Except.error "Invalid request body" })
  | some b =>
    match recommendedStopRepository.Update codec db f b.parse with
    | (db1, some _) => (db1, { status := 500, body := Except.error "Failed to update stop" })
    | (db1, none) => (db1, { status := 200, body := Except.ok "Stop updated successfully" })

end FiberServer

/-! ## The nearby statement against any store

The Go code of `GetNearby` hands the statement to the store and returns the
rows in the order in which the store delivers them.  Which distance the store
measures, and in which order it delivers rows at equal distance, is the
business of the store; both are left open here. -/

/-- A distance the store may measure between a stored geometry and a point:
`distance` is the value of `ST_Distance`, or any key that grows with it, `none`
standing for NULL, and `within k d` is the test `ST_DWithin` makes of such a
value against the tolerance `d`.  The unit is left open. -/
structure DistanceMeasure where
  distance : Geometry → Point → Option ℚ
  within : ℚ → ℚ → Bool

/-- The measure of `Geometry.sqDistance`: planar, in the units of the reference
system, compared through squares. -/
def planarDegrees : DistanceMeasure :=
  { distance := Geometry.sqDistance, within := fun d2 d => decide (d2 ≤ d ^ 2) }

/-- The clause `WHERE ST_DWithin(path, p, d)` on one row. -/
def DistanceMeasure.keeps (m : DistanceMeasure) (p : Point) (d : ℚ) (row : RouteRow) : Bool :=
  match m.distance row.path p with
  | some k => m.within k d
  | none => false

/-- The order of `ORDER BY ST_Distance(path, p) ASC` on two rows: `a` is not
farther from `p` than `b`. -/
def DistanceMeasure.notFarther (m : DistanceMeasure) (p : Point) (a b : RouteRow) : Bool :=
  match m.distance a.path p, m.distance b.path p with
  | some ka, some kb => decide (ka ≤ kb)
  | _, _ => false

/-- What the statement of `GetNearby` asks of the store: `answer` holds the rows
of the table that the `WHERE` clause keeps, each as often as stored, in an
order in which no row is farther from `p` than a later one.  The statement
names no second sort key, so it asks nothing about rows at equal distance. -/
def NearbyAnswer (m : DistanceMeasure) (p : Point) (d : ℚ) (table answer : List RouteRow) :
    Prop :=
  answer.Perm (table.filter (m.keeps p d)) ∧
    answer.Pairwise fun a b => m.notFarther p a b = true

/-- The store under the schema of the spec: the planar measure, rows at equal
distance in storage order, and an error for a negative tolerance. -/
def planarStore (db : DB) (x y d : ℚ) : Except GoError (List RouteRow) :=
  if d < 0 ∧ db.routes ≠ [] then
    Except.error (GoError.store "Tolerance cannot be less than zero")
  else
    Except.ok (nearbyRows (x, y) d db.routes)

namespace routeRepository

/-- Go `(*routeRepository).GetNearby` against any store: `store x y d` is the
answer of the store to the statement with the arguments `$1 = x`, `$2 = y`,
`$3 = d`, as rows of the table in the order of the answer, of which the select
list is taken. -/
def GetNearbyOn (codec : GeometryCodec) (store : ℚ → ℚ → ℚ → Except GoError (List RouteRow))
    (f : Fault) (lat lng distance : ℚ) : Option (List Route) × Option GoError :=
  match sql.QueryContext ((store lng lat distance).map (List.map (RouteRow.project codec))) f with
  | Except.error err => (none, some err)
  | Except.ok rows =>
    match scanLoop rows.pending [] with
    | Except.error err => (none, some err)
    | Except.ok routes => (some routes, none)

end routeRepository

/-! ## Sample data -/

/-- A database with no rows. -/
def emptyDB : DB :=
  { routes := [], recommended_stops := [], recommended_stops_id_seq := 1 }

/-- Two routes and two stops of route 1. -/
def sampleDB : DB :=
  { routes :=
      [ { id := 1, name := "Harbour walk", description := "along the quay",
          path := Geometry.linestring [(0, 0), (1, 0)], created_at := 10 },
        { id := 2, name := "Ridge trail", description := "up the hill",
          path := Geometry.linestring [(0, 2), (3, 2)], created_at := 11 } ]
    recommended_stops :=
      [ { id := 1, route_id := 1, name := "Pier", type := "viewpoint", description := "",
          location := Geometry.point (0, 0), created_at := 12 },
        { id := 2, route_id := 1, name := "Kiosk", type := "shop", description := "",
          location := Geometry.point (1, 0), created_at := 13 } ]
    recommended_stops_id_seq := 3 }

/-- Two routes at the same distance, one degree, from the point `(0, 0)`; the
route with the larger identifier was stored first. -/
def tieDB : DB :=
  { routes :=
      [ { id := 2, name := "East side", description := "",
          path := Geometry.linestring [(1, 0), (1, 1)], created_at := 20 },
        { id := 1, name := "North side", description := "",
          path := Geometry.linestring [(0, 1), (1, 1)], created_at := 21 } ]
    recommended_stops := []
    recommended_stops_id_seq := 1 }

/-- Two routes with one and the same path; the route with the larger
identifier was stored first. -/
def twinDB : DB :=
  { routes :=
      [ { id := 2, name := "Evening run", description := "",
          path := Geometry.linestring [(1, 0), (1, 1)], created_at := 40 },
        { id := 1, name := "Morning run", description := "",
          path := Geometry.linestring [(1, 0), (1, 1)], created_at := 41 } ]
    recommended_stops := []
    recommended_stops_id_seq := 1 }

/-- Three routes on the equator that start 0, 0.0045 and 0.045 degrees of
longitude east of the point `(0, 0)`: on the ground about 0 m, 500 m and
5000 m away from it. -/
def equatorDB : DB :=
  { routes :=
      [ { id := 1, name := "At the point", description := "",
          path := Geometry.linestring [(0, 0), (0, 1 / 1000)], created_at := 30 },
        { id := 2, name := "Half a kilometre off", description := "",
          path := Geometry.linestring [(9 / 2000, 0), (9 / 2000, 1 / 1000)], created_at := 31 },
        { id := 3, name := "Five kilometres off", description := "",
          path := Geometry.linestring [(9 / 200, 0), (9 / 200, 1 / 1000)], created_at := 32 } ]
    recommended_stops := []
    recommended_stops_id_seq := 1 }

/-! ## Lemmas on the `database/sql` layer -/

theorem scanLoop_map_ok {α : Type} (l : List α) (acc : List α) :
    scanLoop (l.map (Except.ok : α → Except GoError α)) acc = Except.ok (acc ++ l) := by
  induction l generalizing acc with
  | nil => simp [scanLoop]
  | cons a rest ih => simp [scanLoop, ih]

theorem scanLoop_failScanAt {α : Type} (n : Nat) (e : GoError) (l acc : List α)
    (h : n < l.length) : scanLoop (sql.failScanAt n e l) acc = Except.error e := by
  induction l generalizing n acc with
  | nil => simp at h
  | cons a rest ih =>
    cases n with
    | zero => simp [sql.failScanAt, scanLoop]
    | succ k =>
      have hk : k < rest.length := by simpa using h
      simp [sql.failScanAt, scanLoop, ih k _ hk]

theorem rowScan_none {α : Type} (rows : List α) :
    sql.Row.Scan (sql.QueryRowContext (Except.ok rows) Fault.none) =
      match rows with
      | [] => Except.error GoError.ErrNoRows
      | r :: _ => Except.ok r := by
  cases rows <;> rfl

/-! ## Lookup by identifier -/

/-- With no fault in the store and no row for `id`, `routeRepository.GetByID`
hands `sql.ErrNoRows` back as the error. -/
theorem routeRepository_GetByID_absent (codec : GeometryCodec) (db : DB) (id : Int)
    (h : ∀ row ∈ db.routes, row.id ≠ id) :
    routeRepository.GetByID codec db Fault.none id = (none, some GoError.ErrNoRows) := by
  have hnil : selectRouteByID codec id db = [] := by
    simp [selectRouteByID, List.filter_eq_nil_iff]
    exact h
  simp [routeRepository.GetByID, rowScan_none, hnil]

/-- C1 (evaluation at the failing input): on a table with no row,
`routeRepository.GetByID` returns the error `sql.ErrNoRows` together with the
nil route, so the handler answers 500 and its 404 branch is not taken. -/
theorem C1_routeRepository_GetByID_absent_row_is_an_error :
    routeRepository.GetByID wktCodec emptyDB Fault.none 1 = (none, some GoError.ErrNoRows) ∧
    FiberServer.getRouteByIDHandler wktCodec emptyDB Fault.none (some 1) =
      { status := 500, body := Except.error "Failed to fetch route" } ∧
    recommendedStopRepository.GetByID wktCodec emptyDB Fault.none 1 = (none, none) := by
  refine ⟨?_, ?_, ?_⟩
  · exact routeRepository_GetByID_absent wktCodec emptyDB 1 (by simp [emptyDB])
  · simp [FiberServer.getRouteByIDHandler,
      routeRepository_GetByID_absent wktCodec emptyDB 1 (by simp [emptyDB])]
  · rfl

/-- C5: `recommendedStopRepository.GetByID` has three outcomes.  It returns
`(nil, nil)` exactly when the store reports no matching row (the statement ran
and no row has the identifier); every other failure of the store comes back as
`(nil, err)` with that error; a row that is scanned comes back as a stop with
a nil error and is a stored row with that identifier; and without a fault an
identifier that is stored is always found. -/
theorem C5_recommendedStopRepository_GetByID_three_outcomes (codec : GeometryCodec) (db : DB)
    (f : Fault) (id : Int) :
    (recommendedStopRepository.GetByID codec db f id = (none, none) ↔
      (∀ row ∈ db.recommended_stops, row.id ≠ id) ∧
        (f = Fault.none ∨ ∃ n msg, f = Fault.scan n msg)) ∧
    (∀ e, sql.Row.Scan (sql.QueryRowContext (Except.ok (selectStopByID codec id db)) f)
          = Except.error e → e ≠ GoError.ErrNoRows →
        recommendedStopRepository.GetByID codec db f id = (none, some e)) ∧
    (∀ stop, sql.Row.Scan (sql.QueryRowContext (Except.ok (selectStopByID codec id db)) f)
          = Except.ok stop →
        recommendedStopRepository.GetByID codec db f id = (some stop, none) ∧
          ∃ row ∈ db.recommended_stops, row.id = id ∧ stop = StopRow.project codec row) ∧
    ((∃ row ∈ db.recommended_stops, row.id = id) →
      ∃ row ∈ db.recommended_stops, row.id = id ∧
        recommendedStopRepository.GetByID codec db Fault.none id =
          (some (StopRow.project codec row), none)) := by
  have hsel : selectStopByID codec id db = [] ↔ ∀ row ∈ db.recommended_stops, row.id ≠ id := by
    simp [selectStopByID, List.filter_eq_nil_iff]
  have hmem : ∀ s rest, selectStopByID codec id db = s :: rest →
      ∃ row ∈ db.recommended_stops, row.id = id ∧ s = StopRow.project codec row := by
    intro s rest h
    have hs : s ∈ selectStopByID codec id db := by rw [h]; exact List.mem_cons_self _ _
    simp only [selectStopByID, List.mem_map, List.mem_filter, decide_eq_true_eq] at hs
    obtain ⟨row, ⟨hrow, hid⟩, rfl⟩ := hs
    exact ⟨row, hrow, hid, rfl⟩
  refine ⟨?_, ?_, ?_, ?_⟩
  rotate_left 3
  · rintro ⟨row, hrow, hid⟩
    cases hrows : selectStopByID codec id db with
    | nil => exact absurd hid (hsel.mp hrows row hrow)
    | cons s rest =>
      obtain ⟨row1, hrow1, hid1, rfl⟩ := hmem s rest hrows
      refine ⟨row1, hrow1, hid1, ?_⟩
      simp [recommendedStopRepository.GetByID, rowScan_none, hrows]
  · rw [← hsel]
    cases hrows : selectStopByID codec id db with
    | nil =>
      cases f with
      | none => simp [recommendedStopRepository.GetByID, sql.QueryRowContext, sql.QueryContext,
          sql.Row.Scan, Except.map, hrows, errors.Is]
      | statement msg => simp [recommendedStopRepository.GetByID, sql.QueryRowContext,
          sql.QueryContext, sql.Row.Scan, errors.Is]
      | scan n msg => simp [recommendedStopRepository.GetByID, sql.QueryRowContext,
          sql.QueryContext, sql.Row.Scan, Except.map, hrows, errors.Is, sql.failScanAt]
      | iteration n msg => simp [recommendedStopRepository.GetByID, sql.QueryRowContext,
          sql.QueryContext, sql.Row.Scan, Except.map, hrows, errors.Is]
    | cons s rest =>
      cases f with
      | none => simp [recommendedStopRepository.GetByID, sql.QueryRowContext, sql.QueryContext,
          sql.Row.Scan, Except.map, hrows]
      | statement msg => simp [recommendedStopRepository.GetByID, sql.QueryRowContext,
          sql.QueryContext, sql.Row.Scan, errors.Is]
      | scan n msg =>
        cases n <;> simp [recommendedStopRepository.GetByID, sql.QueryRowContext,
          sql.QueryContext, sql.Row.Scan, Except.map, hrows, errors.Is, sql.failScanAt]
      | iteration n msg =>
        cases n <;> simp [recommendedStopRepository.GetByID, sql.QueryRowContext,
          sql.QueryContext, sql.Row.Scan, Except.map, hrows, errors.Is]
  · intro e he hne
    simp only [recommendedStopRepository.GetByID, he]
    cases e with
    | ErrNoRows => exact absurd rfl hne
    | store msg => simp [errors.Is]
    | wrapped m inner =>
      exfalso
      revert he
      cases hrows : selectStopByID codec id db with
      | nil =>
        cases f <;> simp [sql.QueryRowContext, sql.QueryContext, sql.Row.Scan, Except.map,
          sql.failScanAt]
      | cons s rest =>
        cases f with
        | none => simp [sql.QueryRowContext, sql.QueryContext, sql.Row.Scan, Except.map]
        | statement msg => simp [sql.QueryRowContext, sql.QueryContext, sql.Row.Scan]
        | scan n msg =>
          cases n <;> simp [sql.QueryRowContext, sql.QueryContext, sql.Row.Scan, Except.map,
            sql.failScanAt]
        | iteration n msg =>
          cases n <;> simp [sql.QueryRowContext, sql.QueryContext, sql.Row.Scan, Except.map]
  · intro stop hs
    refine ⟨by simp only [recommendedStopRepository.GetByID, hs], ?_⟩
    revert hs
    cases hrows : selectStopByID codec id db with
    | nil =>
      cases f <;> simp [sql.QueryRowContext, sql.QueryContext, sql.Row.Scan, Except.map,
        sql.failScanAt]
    | cons s rest =>
      have hfound := hmem s rest hrows
      cases f with
      | none =>
        simp only [sql.QueryRowContext, sql.QueryContext, sql.Row.Scan, Except.map, List.map]
        intro h
        cases h
        exact hfound
      | statement msg => simp [sql.QueryRowContext, sql.QueryContext, sql.Row.Scan]
      | scan n msg =>
        cases n with
        | zero => simp [sql.QueryRowContext, sql.QueryContext, sql.Row.Scan, Except.map,
            sql.failScanAt]
        | succ k =>
          simp only [sql.QueryRowContext, sql.QueryContext, sql.Row.Scan, Except.map,
            sql.failScanAt]
          intro h
          cases h
          exact hfound
      | iteration n msg =>
        cases n with
        | zero => simp [sql.QueryRowContext, sql.QueryContext, sql.Row.Scan, Except.map]
        | succ k =>
          simp only [sql.QueryRowContext, sql.QueryContext, sql.Row.Scan, Except.map,
            List.take, List.map]
          intro h
          cases h
          exact hfound

/-! ## Failures while reading a sequence -/

/-- A failing statement makes `GetByRouteID` return its error. -/
theorem GetByRouteID_statement_fault (codec : GeometryCodec) (db : DB) (msg : String)
    (routeID : Int) :
    recommendedStopRepository.GetByRouteID codec db (Fault.statement msg) routeID =
      ([], some (GoError.store msg)) := by
  simp [recommendedStopRepository.GetByRouteID, sql.QueryContext]

/-- A failing `Scan` makes `GetByRouteID` return its error. -/
theorem GetByRouteID_scan_fault (codec : GeometryCodec) (db : DB) (n : Nat) (msg : String)
    (routeID : Int) (h : n < (selectStopsByRouteID codec routeID db).length) :
    recommendedStopRepository.GetByRouteID codec db (Fault.scan n msg) routeID =
      ([], some (GoError.store msg)) := by
  simp [recommendedStopRepository.GetByRouteID, sql.QueryContext, Except.map,
    scanLoop_failScanAt _ _ _ _ h]

/-- An iteration that breaks after `n` rows makes `GetByRouteID` return those
rows with a nil error. -/
theorem GetByRouteID_iteration_fault (codec : GeometryCodec) (db : DB) (n : Nat) (msg : String)
    (routeID : Int) :
    recommendedStopRepository.GetByRouteID codec db (Fault.iteration n msg) routeID =
      ((selectStopsByRouteID codec routeID db).take n, none) := by
  simp only [recommendedStopRepository.GetByRouteID, sql.QueryContext, Except.map,
    scanLoop_map_ok, List.nil_append]

/-- An iteration that breaks after `n` rows makes `GetNearby` return those rows
with a nil error. -/
theorem GetNearby_iteration_fault (codec : GeometryCodec) (db : DB) (n : Nat) (msg : String)
    (lat lng distance : ℚ) (h : 0 ≤ distance) :
    routeRepository.GetNearby codec db (Fault.iteration n msg) lat lng distance =
      (some (((nearbyRows (lng, lat) distance db.routes).map (RouteRow.project codec)).take n),
        none) := by
  have hd : ¬ (distance < 0 ∧ db.routes ≠ []) := fun hc => absurd hc.1 (not_lt.mpr h)
  simp only [routeRepository.GetNearby, sql.QueryContext, selectNearby, hd, if_false, Except.map,
    scanLoop_map_ok, List.nil_append]

/-- Without a fault and with a tolerance that is not negative, `GetNearby`
returns the rows of the statement, in its order. -/
theorem GetNearby_no_fault (codec : GeometryCodec) (db : DB) (lat lng distance : ℚ)
    (h : 0 ≤ distance) :
    routeRepository.GetNearby codec db Fault.none lat lng distance =
      (some ((nearbyRows (lng, lat) distance db.routes).map (RouteRow.project codec)), none) := by
  have hd : ¬ (distance < 0 ∧ db.routes ≠ []) := fun hc => absurd hc.1 (not_lt.mpr h)
  simp only [routeRepository.GetNearby, sql.QueryContext, selectNearby, hd, if_false, Except.map,
    scanLoop_map_ok, List.nil_append]

/-- Without a fault `GetByRouteID` returns the rows of the statement. -/
theorem GetByRouteID_no_fault (codec : GeometryCodec) (db : DB) (routeID : Int) :
    recommendedStopRepository.GetByRouteID codec db Fault.none routeID =
      (selectStopsByRouteID codec routeID db, none) := by
  simp only [recommendedStopRepository.GetByRouteID, sql.QueryContext, Except.map,
    scanLoop_map_ok, List.nil_append]

theorem sampleDB_nearbyRows :
    nearbyRows (0, 0) 1000 sampleDB.routes = sampleDB.routes := by
  norm_num [nearbyRows, withinRows, sampleDB, List.filterMap_cons, Geometry.sqDistance,
    sqDistancePath, sqDistanceSegment, sqDistance, List.insertionSort, List.orderedInsert]

/-- C4 (evaluation at the failing input): the table holds two routes within
reach and two stops of route 1, and the connection breaks after the first row.
Both reads return the first row alone together with a nil error; the error of
the iteration is not returned. -/
theorem C4_iteration_error_is_dropped :
    routeRepository.GetNearby wktCodec sampleDB (Fault.iteration 1 "connection reset") 0 0 1000 =
      (some [{ ID := 1, Name := "Harbour walk", Description := "along the quay",
               Path := "LINESTRING(0 0,1 0)", CreatedAt := 10 }], none) ∧
    recommendedStopRepository.GetByRouteID wktCodec sampleDB
        (Fault.iteration 1 "connection reset") 1 =
      ([{ ID := 1, RouteID := 1, Name := "Pier", Type_ := "viewpoint", Description := "",
          Location := "POINT(0 0)", CreatedAt := 12 }], none) ∧
    (routeRepository.GetNearby wktCodec sampleDB Fault.none 0 0 1000).1.map List.length
      = some 2 ∧
    (recommendedStopRepository.GetByRouteID wktCodec sampleDB Fault.none 1).1.length = 2 := by
  refine ⟨?_, ?_, ?_, ?_⟩
  · rw [GetNearby_iteration_fault _ _ _ _ _ _ _ (by norm_num), sampleDB_nearbyRows]
    decide
  · rw [GetByRouteID_iteration_fault]
    decide
  · rw [GetNearby_no_fault _ _ _ _ _ (by norm_num), sampleDB_nearbyRows]
    decide
  · rw [GetByRouteID_no_fault]
    decide

/-! ## The nearby query -/

/-- Every row kept by the `WHERE` clause is a row of the table, carries the
square of its own distance, and lies within the tolerance. -/
theorem withinRows_spec (p : Point) (d : ℚ) (rows : List RouteRow) (x : ℚ × RouteRow)
    (hx : x ∈ withinRows p d rows) :
    x.2 ∈ rows ∧ x.2.path.sqDistance p = some x.1 ∧ x.1 ≤ d ^ 2 := by
  simp only [withinRows, List.mem_filterMap] at hx
  obtain ⟨row, hrow, hkeep⟩ := hx
  cases hdist : row.path.sqDistance p with
  | none => simp [hdist] at hkeep
  | some d2 =>
    simp only [hdist] at hkeep
    by_cases hle : d2 ≤ d ^ 2
    · simp only [hle, if_true, Option.some.injEq] at hkeep
      subst hkeep
      exact ⟨hrow, hdist, hle⟩
    · simp [hle] at hkeep

/-- A row of the table within the tolerance is kept by the `WHERE` clause. -/
theorem mem_withinRows (p : Point) (d : ℚ) (rows : List RouteRow) (row : RouteRow) (d2 : ℚ)
    (hrow : row ∈ rows) (hdist : row.path.sqDistance p = some d2) (hle : d2 ≤ d ^ 2) :
    (d2, row) ∈ withinRows p d rows := by
  simp only [withinRows, List.mem_filterMap]
  exact ⟨row, hrow, by simp [hdist, hle]⟩

/-- The rows of the nearby statement are the rows of the table within the
tolerance. -/
theorem mem_nearbyRows (p : Point) (d : ℚ) (rows : List RouteRow) (row : RouteRow) :
    row ∈ nearbyRows p d rows ↔
      row ∈ rows ∧ ∃ d2, row.path.sqDistance p = some d2 ∧ d2 ≤ d ^ 2 := by
  simp only [nearbyRows, List.mem_map, List.mem_insertionSort]
  constructor
  · rintro ⟨x, hx, rfl⟩
    obtain ⟨h1, h2, h3⟩ := withinRows_spec p d rows x hx
    exact ⟨h1, x.1, h2, h3⟩
  · rintro ⟨hrow, d2, hdist, hle⟩
    exact ⟨(d2, row), mem_withinRows p d rows row d2 hrow hdist hle, rfl⟩

/-- The rows of the nearby statement come in ascending distance. -/
theorem nearbyRows_sorted (p : Point) (d : ℚ) (rows : List RouteRow) :
    (nearbyRows p d rows).Pairwise fun a b =>
      ∃ da db, a.path.sqDistance p = some da ∧ b.path.sqDistance p = some db ∧ da ≤ db := by
  haveI : IsTotal (ℚ × RouteRow) (fun a b => a.1 ≤ b.1) := ⟨fun a b => le_total a.1 b.1⟩
  haveI : IsTrans (ℚ × RouteRow) (fun a b => a.1 ≤ b.1) := ⟨fun _ _ _ h1 h2 => le_trans h1 h2⟩
  have hs := List.sorted_insertionSort (fun a b : ℚ × RouteRow => a.1 ≤ b.1) (withinRows p d rows)
  unfold nearbyRows
  rw [List.pairwise_map]
  refine List.Pairwise.imp_of_mem ?_ hs
  intro a b ha hb hab
  rw [List.mem_insertionSort] at ha hb
  exact ⟨a.1, b.1, (withinRows_spec p d rows a ha).2.1, (withinRows_spec p d rows b hb).2.1, hab⟩

/-- Two rows within the tolerance, the first stored before the second and not
farther away, come out in that order. -/
theorem nearbyRows_stable (p : Point) (d : ℚ) (rows : List RouteRow) (a b : RouteRow)
    (da db : ℚ) (hsub : [a, b].Sublist rows)
    (ha : a.path.sqDistance p = some da) (hb : b.path.sqDistance p = some db)
    (had : da ≤ d ^ 2) (hbd : db ≤ d ^ 2) (hab : da ≤ db) :
    [a, b].Sublist (nearbyRows p d rows) := by
  have h1 : [(da, a), (db, b)].Sublist (withinRows p d rows) := by
    have h := hsub.filterMap fun row : RouteRow =>
      match row.path.sqDistance p with
      | some d2 => if d2 ≤ d ^ 2 then some (d2, row) else none
      | none => none
    simpa [withinRows, List.filterMap_cons, ha, hb, had, hbd] using h
  have h2 := List.pair_sublist_insertionSort (r := fun a b : ℚ × RouteRow => a.1 ≤ b.1)
    (a := (da, a)) (b := (db, b)) hab h1
  simpa [nearbyRows] using h2.map Prod.snd

theorem tieDB_nearbyRows : nearbyRows (0, 0) 10 tieDB.routes = tieDB.routes := by
  norm_num [nearbyRows, withinRows, tieDB, List.filterMap_cons, Geometry.sqDistance,
    sqDistancePath, sqDistanceSegment, sqDistance, List.insertionSort, List.orderedInsert]

/-! ### The statement and the Go code, for any measure -/

theorem scanLoop_failScanAt_ge {α : Type} (n : Nat) (e : GoError) (l acc : List α)
    (h : l.length ≤ n) : scanLoop (sql.failScanAt n e l) acc = Except.ok (acc ++ l) := by
  induction l generalizing n acc with
  | nil => simp [sql.failScanAt, scanLoop]
  | cons a rest ih =>
    cases n with
    | zero => simp at h
    | succ k =>
      have hk : rest.length ≤ k := by simpa using h
      simp [sql.failScanAt, scanLoop, ih k _ hk]

theorem notFarther_iff (m : DistanceMeasure) (p : Point) (a b : RouteRow) :
    m.notFarther p a b = true ↔
      ∃ ka kb, m.distance a.path p = some ka ∧ m.distance b.path p = some kb ∧ ka ≤ kb := by
  unfold DistanceMeasure.notFarther
  cases m.distance a.path p <;> cases m.distance b.path p <;> simp

/-- The rows the planar `WHERE` clause keeps, without their keys. -/
theorem withinRows_map_snd (p : Point) (d : ℚ) (rows : List RouteRow) :
    (withinRows p d rows).map Prod.snd = rows.filter (planarDegrees.keeps p d) := by
  induction rows with
  | nil => rfl
  | cons row rest ih =>
    simp only [withinRows] at ih
    simp only [withinRows, List.filterMap_cons, List.filter_cons]
    cases hdist : row.path.sqDistance p with
    | none => simp [DistanceMeasure.keeps, planarDegrees, hdist, ih]
    | some d2 =>
      by_cases hle : d2 ≤ d ^ 2
      · simp [DistanceMeasure.keeps, planarDegrees, hdist, hle, ih]
      · simp [DistanceMeasure.keeps, planarDegrees, hdist, hle, ih]

/-- The rows `nearbyRows` computes are an answer to the statement for the
planar measure. -/
theorem nearbyRows_answer (p : Point) (d : ℚ) (rows : List RouteRow) :
    NearbyAnswer planarDegrees p d rows (nearbyRows p d rows) := by
  constructor
  · rw [← withinRows_map_snd]
    exact (List.perm_insertionSort _ _).map Prod.snd
  · refine (nearbyRows_sorted p d rows).imp ?_
    intro a b hab
    exact (notFarther_iff planarDegrees p a b).mpr hab

/-- Whatever `planarStore` answers is an answer to the statement. -/
theorem planarStore_answer (db : DB) (x y d : ℚ) (answer : List RouteRow)
    (h : planarStore db x y d = Except.ok answer) :
    NearbyAnswer planarDegrees (x, y) d db.routes answer := by
  unfold planarStore at h
  by_cases hc : d < 0 ∧ db.routes ≠ []
  · simp [hc] at h
  · simp only [hc, if_false, Except.ok.injEq] at h
    rw [← h]
    exact nearbyRows_answer _ _ _

/-- `GetNearby` is `GetNearbyOn` run against `planarStore`. -/
theorem GetNearby_eq_GetNearbyOn (codec : GeometryCodec) (db : DB) (f : Fault)
    (lat lng distance : ℚ) :
    routeRepository.GetNearby codec db f lat lng distance =
      routeRepository.GetNearbyOn codec (planarStore db) f lat lng distance := by
  have hsel : selectNearby codec lng lat distance db =
      (planarStore db lng lat distance).map (List.map (RouteRow.project codec)) := by
    unfold selectNearby planarStore
    by_cases hc : distance < 0 ∧ db.routes ≠ []
    · rw [if_pos hc, if_pos hc]
      rfl
    · rw [if_neg hc, if_neg hc]
      rfl
  simp only [routeRepository.GetNearby, routeRepository.GetNearbyOn, hsel]

/-- Without a fault `GetNearbyOn` returns the answer of the store as it is. -/
theorem GetNearbyOn_no_fault (codec : GeometryCodec)
    (store : ℚ → ℚ → ℚ → Except GoError (List RouteRow)) (lat lng distance : ℚ)
    (answer : List RouteRow) (hstore : store lng lat distance = Except.ok answer) :
    routeRepository.GetNearbyOn codec store Fault.none lat lng distance =
      (some (answer.map (RouteRow.project codec)), none) := by
  simp only [routeRepository.GetNearbyOn, hstore, sql.QueryContext, Except.map,
    scanLoop_map_ok, List.nil_append]

/-- Under any fault, a sequence that `GetNearbyOn` returns is an initial part of
the answer of the store. -/
theorem GetNearbyOn_take (codec : GeometryCodec)
    (store : ℚ → ℚ → ℚ → Except GoError (List RouteRow)) (f : Fault) (lat lng distance : ℚ)
    (answer : List RouteRow) (routes : List Route)
    (hstore : store lng lat distance = Except.ok answer)
    (h : (routeRepository.GetNearbyOn codec store f lat lng distance).1 = some routes) :
    ∃ n, routes = (answer.take n).map (RouteRow.project codec) := by
  cases f with
  | none =>
    rw [GetNearbyOn_no_fault codec store lat lng distance answer hstore] at h
    refine ⟨answer.length, ?_⟩
    rw [List.take_length]
    exact (Option.some.inj h).symm
  | statement msg =>
    simp [routeRepository.GetNearbyOn, sql.QueryContext] at h
  | scan n msg =>
    by_cases hn : n < (answer.map (RouteRow.project codec)).length
    · simp [routeRepository.GetNearbyOn, hstore, sql.QueryContext, Except.map,
        scanLoop_failScanAt _ _ _ _ hn] at h
    · have hge : (answer.map (RouteRow.project codec)).length ≤ n := not_lt.mp hn
      simp only [routeRepository.GetNearbyOn, hstore, sql.QueryContext, Except.map,
        scanLoop_failScanAt_ge _ _ _ _ hge, List.nil_append] at h
      refine ⟨answer.length, ?_⟩
      rw [List.take_length]
      exact (Option.some.inj h).symm
  | iteration n msg =>
    simp only [routeRepository.GetNearbyOn, hstore, sql.QueryContext, Except.map,
      scanLoop_map_ok, List.nil_append] at h
    refine ⟨n, ?_⟩
    rw [List.map_take]
    exact (Option.some.inj h).symm

theorem twinDB_nearbyRows : nearbyRows (0, 0) 10 twinDB.routes = twinDB.routes := by
  norm_num [nearbyRows, withinRows, twinDB, List.filterMap_cons, Geometry.sqDistance,
    sqDistancePath, sqDistanceSegment, sqDistance, List.insertionSort, List.orderedInsert]

theorem twinDB_keeps (row : RouteRow) (h : row ∈ twinDB.routes) :
    planarDegrees.keeps (0, 0) 10 row = true ∧
      planarDegrees.distance row.path (0, 0) = some 1 := by
  simp only [twinDB, List.mem_cons, List.mem_singleton, List.not_mem_nil, or_false] at h
  rcases h with rfl | rfl <;>
    norm_num [DistanceMeasure.keeps, planarDegrees, Geometry.sqDistance, sqDistancePath,
      sqDistanceSegment, sqDistance]

/-- C2 (counterexample): two routes have one and the same path, so they are at
equal distance from every point under every measure; the one with identifier 2
was stored first.  The statement admits the answer 2, 1 as well as the answer
1, 2, under the planar measure and under any other measure that keeps the
path; the Go code returns the answer of the store as it is; and against
`planarStore` `GetNearby` returns 2, 1.  Routes at equal distance are not
in ascending identifier order, and the table contents and the arguments do not
fix the result. -/
theorem C2_counterexample_equal_distance_not_by_id :
    NearbyAnswer planarDegrees (0, 0) 10 twinDB.routes twinDB.routes ∧
    NearbyAnswer planarDegrees (0, 0) 10 twinDB.routes twinDB.routes.reverse ∧
    (∀ (m : DistanceMeasure) (k : ℚ),
      m.distance (Geometry.linestring [(1, 0), (1, 1)]) (0, 0) = some k → m.within k 10 = true →
        NearbyAnswer m (0, 0) 10 twinDB.routes twinDB.routes) ∧
    routeRepository.GetNearbyOn wktCodec (fun _ _ _ => Except.ok twinDB.routes) Fault.none 0 0 10 =
      (some [{ ID := 2, Name := "Evening run", Description := "",
               Path := "LINESTRING(1 0,1 1)", CreatedAt := 40 },
             { ID := 1, Name := "Morning run", Description := "",
               Path := "LINESTRING(1 0,1 1)", CreatedAt := 41 }], none) ∧
    routeRepository.GetNearbyOn wktCodec (fun _ _ _ => Except.ok twinDB.routes.reverse)
        Fault.none 0 0 10 =
      (some [{ ID := 1, Name := "Morning run", Description := "",
               Path := "LINESTRING(1 0,1 1)", CreatedAt := 41 },
             { ID := 2, Name := "Evening run", Description := "",
               Path := "LINESTRING(1 0,1 1)", CreatedAt := 40 }], none) ∧
    routeRepository.GetNearby wktCodec twinDB Fault.none 0 0 10 =
      (some [{ ID := 2, Name := "Evening run", Description := "",
               Path := "LINESTRING(1 0,1 1)", CreatedAt := 40 },
             { ID := 1, Name := "Morning run", Description := "",
               Path := "LINESTRING(1 0,1 1)", CreatedAt := 41 }], none) ∧
    ¬ (nearbyRows (0, 0) 10 twinDB.routes).Pairwise
        (fun a b => a.path = b.path → a.id ≤ b.id) := by
  have hgen : ∀ (m : DistanceMeasure) (k : ℚ),
      m.distance (Geometry.linestring [(1, 0), (1, 1)]) (0, 0) = some k → m.within k 10 = true →
        NearbyAnswer m (0, 0) 10 twinDB.routes twinDB.routes ∧
        NearbyAnswer m (0, 0) 10 twinDB.routes twinDB.routes.reverse := by
    intro m k hk hw
    have hfilter : twinDB.routes.filter (m.keeps (0, 0) 10) = twinDB.routes := by
      simp only [twinDB, List.filter_cons, List.filter_nil, DistanceMeasure.keeps, hk, hw,
        if_true]
    have hle : ∀ a ∈ twinDB.routes, ∀ b ∈ twinDB.routes, m.notFarther (0, 0) a b = true := by
      intro a ha b hb
      simp only [twinDB, List.mem_cons, List.mem_singleton, List.not_mem_nil, or_false] at ha hb
      rcases ha with rfl | rfl <;> rcases hb with rfl | rfl <;>
        simp only [DistanceMeasure.notFarther, hk, le_refl, decide_True]
    refine ⟨⟨?_, ?_⟩, ⟨?_, ?_⟩⟩
    · rw [hfilter]
    · exact List.pairwise_of_forall_mem_list hle
    · rw [hfilter]
      exact List.reverse_perm _
    · exact List.pairwise_of_forall_mem_list fun a ha b hb =>
        hle a (List.mem_reverse.mp ha) b (List.mem_reverse.mp hb)
  have hplanar := hgen planarDegrees 1
    (by norm_num [planarDegrees, Geometry.sqDistance, sqDistancePath, sqDistanceSegment,
      sqDistance])
    (by norm_num [planarDegrees])
  refine ⟨hplanar.1, hplanar.2, fun m k hk hw => (hgen m k hk hw).1, ?_, ?_, ?_, ?_⟩
  · rw [GetNearbyOn_no_fault wktCodec _ 0 0 10 twinDB.routes rfl]
    decide
  · rw [GetNearbyOn_no_fault wktCodec _ 0 0 10 twinDB.routes.reverse rfl]
    decide
  · rw [GetNearby_no_fault _ _ _ _ _ (by norm_num), twinDB_nearbyRows]
    decide
  · rw [twinDB_nearbyRows]
    simp [twinDB]

/-- C2 (amended): for every measure of distance, every table, every fault and
all arguments, against a store that answers the statement of `GetNearby` as
the statement asks: without a fault `GetNearby` returns the answer of the
store in the order of the store, and under any fault a sequence it returns
lists rows of the table in ascending order of `ST_Distance(path, point)` as
the store measures it.  Nothing is said about the unit of that distance nor
about the order of routes at equal distance. -/
theorem C2_GetNearby_keeps_store_order (m : DistanceMeasure) (codec : GeometryCodec)
    (store : ℚ → ℚ → ℚ → Except GoError (List RouteRow)) (table : List RouteRow) (f : Fault)
    (lat lng distance : ℚ)
    (hstore : ∀ answer, store lng lat distance = Except.ok answer →
      NearbyAnswer m (lng, lat) distance table answer) :
    (∀ answer, store lng lat distance = Except.ok answer →
      routeRepository.GetNearbyOn codec store Fault.none lat lng distance =
        (some (answer.map (RouteRow.project codec)), none)) ∧
    (∀ routes, (routeRepository.GetNearbyOn codec store f lat lng distance).1 = some routes →
      ∃ rows : List RouteRow,
        routes = rows.map (RouteRow.project codec) ∧
        (∀ row ∈ rows, row ∈ table) ∧
        rows.Pairwise fun a b =>
          ∃ ka kb, m.distance a.path (lng, lat) = some ka ∧
            m.distance b.path (lng, lat) = some kb ∧ ka ≤ kb) := by
  refine ⟨fun answer hs => GetNearbyOn_no_fault codec store lat lng distance answer hs, ?_⟩
  intro routes h
  cases hs : store lng lat distance with
  | error e =>
    exfalso
    cases f <;> simp [routeRepository.GetNearbyOn, hs, sql.QueryContext, Except.map] at h
  | ok answer =>
    obtain ⟨n, hn⟩ := GetNearbyOn_take codec store f lat lng distance answer routes hs h
    obtain ⟨hperm, hsorted⟩ := hstore answer hs
    refine ⟨answer.take n, hn, ?_, ?_⟩
    · intro row hrow
      have hmem : row ∈ table.filter (m.keeps (lng, lat) distance) :=
        hperm.subset (List.mem_of_mem_take hrow)
      exact (List.mem_filter.mp hmem).1
    · refine (hsorted.sublist (List.take_sublist n answer)).imp ?_
      intro a b hab
      exact (notFarther_iff m (lng, lat) a b).mp hab

/-- C2 (amended), at the table of the counterexample, against `planarStore` and
with the connection breaking after the first row. -/
theorem C2_GetNearby_keeps_store_order_witness :
    (∀ answer, planarStore twinDB 0 0 10 = Except.ok answer →
      NearbyAnswer planarDegrees (0, 0) 10 twinDB.routes answer) ∧
    (∀ answer, planarStore twinDB 0 0 10 = Except.ok answer →
      routeRepository.GetNearbyOn wktCodec (planarStore twinDB) Fault.none 0 0 10 =
        (some (answer.map (RouteRow.project wktCodec)), none)) ∧
    (∀ routes,
      (routeRepository.GetNearbyOn wktCodec (planarStore twinDB)
        (Fault.iteration 1 "connection reset") 0 0 10).1 = some routes →
      ∃ rows : List RouteRow,
        routes = rows.map (RouteRow.project wktCodec) ∧
        (∀ row ∈ rows, row ∈ twinDB.routes) ∧
        rows.Pairwise fun a b =>
          ∃ ka kb, planarDegrees.distance a.path (0, 0) = some ka ∧
            planarDegrees.distance b.path (0, 0) = some kb ∧ ka ≤ kb) :=
  ⟨fun answer h => planarStore_answer twinDB 0 0 10 answer h,
   C2_GetNearby_keeps_store_order planarDegrees wktCodec (planarStore twinDB) twinDB.routes
     (Fault.iteration 1 "connection reset") 0 0 10
     (fun answer h => planarStore_answer twinDB 0 0 10 answer h)⟩

theorem equatorDB_nearbyRows_1000 :
    nearbyRows (0, 0) 1000 equatorDB.routes = equatorDB.routes := by
  norm_num [nearbyRows, withinRows, equatorDB, List.filterMap_cons, Geometry.sqDistance,
    sqDistancePath, sqDistanceSegment, sqDistance, List.insertionSort, List.orderedInsert]

theorem equatorDB_nearbyRows_hundredth :
    nearbyRows (0, 0) (1 / 100) equatorDB.routes = equatorDB.routes.take 2 := by
  norm_num [nearbyRows, withinRows, equatorDB, List.filterMap_cons, Geometry.sqDistance,
    sqDistancePath, sqDistanceSegment, sqDistance, List.insertionSort, List.orderedInsert]

/-- C3 (evaluation at the failing input): routes lie about 0 m, 500 m and
5000 m from the query point.  With `distance = 1000` `GetNearby` returns all
three, the third included; with `distance = 1/100` it still returns the route
500 m away.  The tolerance is compared with a distance in degrees. -/
theorem C3_GetNearby_tolerance_is_in_degrees :
    (routeRepository.GetNearby wktCodec equatorDB Fault.none 0 0 1000).1.map (List.map Route.ID)
      = some [1, 2, 3] ∧
    (routeRepository.GetNearby wktCodec equatorDB Fault.none 0 0 1000).2 = none ∧
    (routeRepository.GetNearby wktCodec equatorDB Fault.none 0 0 (1 / 100)).1.map
      (List.map Route.ID) = some [1, 2] := by
  refine ⟨?_, ?_, ?_⟩
  · rw [GetNearby_no_fault _ _ _ _ _ (by norm_num), equatorDB_nearbyRows_1000]
    simp [equatorDB, RouteRow.project]
  · rw [GetNearby_no_fault _ _ _ _ _ (by norm_num)]
  · rw [GetNearby_no_fault _ _ _ _ _ (by norm_num), equatorDB_nearbyRows_hundredth]
    simp [equatorDB, RouteRow.project]

/-! ## Creation followed by lookup -/

/-- The effect of a `Create` that returned a nil error, for a path that reads
as a linestring. -/
theorem routeRepository_Create_ok (codec : GeometryCodec) (db : DB) (f : Fault) (now : Time)
    (route : Route) (pts : List Point)
    (hpath : codec.geomFromText route.Path = some (Geometry.linestring pts))
    (hcreate : (routeRepository.Create codec db f now route).2 = none) :
    (routeRepository.Create codec db f now route).1 =
      { db with
        routes := db.routes ++
          [{ id := route.ID, name := route.Name, description := route.Description,
             path := Geometry.linestring pts, created_at := now }] } := by
  revert hcreate
  by_cases hdup : (db.routes.any fun row => decide (row.id = route.ID)) = true
  · cases f <;> simp [routeRepository.Create, sql.ExecContext, insertRoute, lineFromText, hpath, hdup]
  · cases f <;> simp [routeRepository.Create, sql.ExecContext, insertRoute, lineFromText, hpath, hdup]

/-- With a well-formed path, a fresh identifier and no fault, `Create` returns
a nil error. -/
theorem routeRepository_Create_succeeds (codec : GeometryCodec) (db : DB) (now : Time)
    (route : Route) (pts : List Point)
    (hpath : codec.geomFromText route.Path = some (Geometry.linestring pts))
    (hfresh : ∀ row ∈ db.routes, row.id ≠ route.ID) :
    (routeRepository.Create codec db Fault.none now route).2 = none := by
  have hdup : ¬ ((db.routes.any fun row => decide (row.id = route.ID)) = true) := by
    simpa using hfresh
  simp [routeRepository.Create, sql.ExecContext, insertRoute, lineFromText, hpath, hdup]

/-- C6: for a route whose path reads as a linestring and whose identifier is
not yet stored, `Create` without a fault succeeds, and after any `Create` that
returned nil, `GetByID(route.ID)` returns a route with the same ID, Name and
Description, with the text the store writes for the stored path, which reads
back as the geometry of the given path whenever the codec reads back what it
wrote, and with the creation time taken from the store. -/
theorem C6_Create_then_GetByID (codec : GeometryCodec) (db : DB) (f : Fault) (now : Time)
    (route : Route) (pts : List Point)
    (hpath : codec.geomFromText route.Path = some (Geometry.linestring pts))
    (hlaw : codec.geomFromText (codec.asText (Geometry.linestring pts)) =
      some (Geometry.linestring pts))
    (hfresh : ∀ row ∈ db.routes, row.id ≠ route.ID)
    (hcreate : (routeRepository.Create codec db f now route).2 = none) :
    (routeRepository.Create codec db Fault.none now route).2 = none ∧
    ∃ r : Route,
      routeRepository.GetByID codec (routeRepository.Create codec db f now route).1 Fault.none
        route.ID = (some r, none) ∧
      r.ID = route.ID ∧ r.Name = route.Name ∧ r.Description = route.Description ∧
      r.Path = codec.asText (Geometry.linestring pts) ∧
      codec.geomFromText r.Path = codec.geomFromText route.Path ∧
      r.CreatedAt = now := by
  refine ⟨routeRepository_Create_succeeds codec db now route pts hpath hfresh, ?_⟩
  have hold : (db.routes.filter fun row => decide (row.id = route.ID)) = [] := by
    simp [List.filter_eq_nil_iff]
    exact hfresh
  refine ⟨{ ID := route.ID, Name := route.Name, Description := route.Description,
            Path := codec.asText (Geometry.linestring pts), CreatedAt := now }, ?_, rfl, rfl, rfl,
          rfl, ?_, rfl⟩
  · rw [routeRepository_Create_ok codec db f now route pts hpath hcreate]
    simp [routeRepository.GetByID, rowScan_none, selectRouteByID, List.filter_append, hold,
      RouteRow.project]
  · simp only [hlaw, hpath]

/-- C6, at the route of the example scenario stored into the sample table. -/
theorem C6_Create_then_GetByID_witness :
    wktCodec.geomFromText "LINESTRING(-122.4 37.7, -122.3 37.8)" =
      some (Geometry.linestring
        [(mkRat (-1224) 10, mkRat 377 10), (mkRat (-1223) 10, mkRat 378 10)]) ∧
    (routeRepository.Create wktCodec sampleDB Fault.none 50
      { ID := 7, Name := "Bay loop", Description := "flat", Path :=
        "LINESTRING(-122.4 37.7, -122.3 37.8)", CreatedAt := 0 }).2 = none ∧
    ∃ r : Route,
      routeRepository.GetByID wktCodec
        (routeRepository.Create wktCodec sampleDB Fault.none 50
          { ID := 7, Name := "Bay loop", Description := "flat", Path :=
            "LINESTRING(-122.4 37.7, -122.3 37.8)", CreatedAt := 0 }).1 Fault.none 7
        = (some r, none) ∧
      r.ID = 7 ∧ r.Name = "Bay loop" ∧ r.Description = "flat" ∧
      r.Path = wktCodec.asText (Geometry.linestring
        [(mkRat (-1224) 10, mkRat 377 10), (mkRat (-1223) 10, mkRat 378 10)]) ∧
      wktCodec.geomFromText r.Path =
        wktCodec.geomFromText "LINESTRING(-122.4 37.7, -122.3 37.8)" ∧
      r.CreatedAt = 50 :=
  ⟨by decide,
   (C6_Create_then_GetByID wktCodec sampleDB Fault.none 50
      { ID := 7, Name := "Bay loop", Description := "flat", Path :=
        "LINESTRING(-122.4 37.7, -122.3 37.8)", CreatedAt := 0 }
      [(mkRat (-1224) 10, mkRat 377 10), (mkRat (-1223) 10, mkRat 378 10)]
      (by decide) (by decide) (by decide) (by decide)).1,
   (C6_Create_then_GetByID wktCodec sampleDB Fault.none 50
      { ID := 7, Name := "Bay loop", Description := "flat", Path :=
        "LINESTRING(-122.4 37.7, -122.3 37.8)", CreatedAt := 0 }
      [(mkRat (-1224) 10, mkRat 377 10), (mkRat (-1223) 10, mkRat 378 10)]
      (by decide) (by decide) (by decide) (by decide)).2⟩

/-! ## Stops of one route -/

/-- C7: without a fault, `GetByRouteID(r)` returns the stored stops of route
`r` and nothing else: every returned stop has `RouteID = r` and comes from a
stored row, every stored row of route `r` is returned, and each identifier is
returned as often as it is stored for route `r` (once, identifiers being
unique).  In the example scenario the one stop created for route 1 is the
whole result. -/
theorem C7_GetByRouteID_scoped (codec : GeometryCodec) (db : DB) (r : Int) :
    (∃ stops : List RecommendedStop,
      recommendedStopRepository.GetByRouteID codec db Fault.none r = (stops, none) ∧
      (∀ s ∈ stops, s.RouteID = r ∧ ∃ row ∈ db.recommended_stops, s = StopRow.project codec row) ∧
      (∀ row ∈ db.recommended_stops, row.route_id = r → StopRow.project codec row ∈ stops) ∧
      (∀ id : Int, (stops.filter fun s => decide (s.ID = id)).length =
        (db.recommended_stops.filter fun row =>
          decide (row.route_id = r) && decide (row.id = id)).length) ∧
      ((db.recommended_stops.map StopRow.id).Nodup → (stops.map RecommendedStop.ID).Nodup)) ∧
    recommendedStopRepository.GetByRouteID wktCodec
      (recommendedStopRepository.Create wktCodec
        (routeRepository.Create wktCodec emptyDB Fault.none 100
          { ID := 1, Name := "Bay loop", Description := "", Path :=
            "LINESTRING(-122.4 37.7, -122.3 37.8)", CreatedAt := 0 }).1
        Fault.none 101
        { ID := 0, RouteID := 1, Name := "Lookout", Type_ := "viewpoint", Description := "",
          Location := "POINT(-122.35 37.75)", CreatedAt := 0 }).1
      Fault.none 1 =
      ([{ ID := 1, RouteID := 1, Name := "Lookout", Type_ := "viewpoint", Description := "",
          Location := "POINT(-122.35 37.75)", CreatedAt := 101 }], none) := by
  refine ⟨⟨selectStopsByRouteID codec r db, GetByRouteID_no_fault codec db r, ?_, ?_, ?_, ?_⟩,
    ?_⟩
  · intro s hs
    simp only [selectStopsByRouteID, List.mem_map, List.mem_filter, decide_eq_true_eq] at hs
    obtain ⟨row, ⟨hrow, hid⟩, rfl⟩ := hs
    exact ⟨hid, row, hrow, rfl⟩
  · intro row hrow hid
    simp only [selectStopsByRouteID, List.mem_map, List.mem_filter, decide_eq_true_eq]
    exact ⟨row, ⟨hrow, hid⟩, rfl⟩
  · intro id
    simp only [selectStopsByRouteID, List.filter_map, List.length_map, List.filter_filter]
    congr 1
    apply List.filter_congr
    intro row _
    simp [StopRow.project, Bool.and_comm]
  · intro hnodup
    have hids : (selectStopsByRouteID codec r db).map RecommendedStop.ID =
        (db.recommended_stops.filter fun row => decide (row.route_id = r)).map StopRow.id := by
      simp only [selectStopsByRouteID, List.map_map]
      rfl
    rw [hids]
    exact hnodup.sublist ((List.filter_sublist _).map StopRow.id)
  · decide

/-! ## Delete -/

/-- C8: in both repositories, without a fault, `Delete(id)` returns nil, takes
out of its table the rows with that identifier and leaves every other row, the
other table and the sequence as they were; a second `Delete(id)` returns nil
again and changes nothing. -/
theorem C8_Delete_idempotent (db : DB) (id : Int) :
    ((routeRepository.Delete db Fault.none id).2 = none ∧
      (routeRepository.Delete db Fault.none id).1.routes =
        db.routes.filter (fun row => decide (row.id ≠ id)) ∧
      (∀ row, row ∈ (routeRepository.Delete db Fault.none id).1.routes ↔
        row ∈ db.routes ∧ row.id ≠ id) ∧
      (routeRepository.Delete db Fault.none id).1.recommended_stops = db.recommended_stops ∧
      (routeRepository.Delete db Fault.none id).1.recommended_stops_id_seq =
        db.recommended_stops_id_seq ∧
      routeRepository.Delete (routeRepository.Delete db Fault.none id).1 Fault.none id =
        ((routeRepository.Delete db Fault.none id).1, none)) ∧
    ((recommendedStopRepository.Delete db Fault.none id).2 = none ∧
      (recommendedStopRepository.Delete db Fault.none id).1.recommended_stops =
        db.recommended_stops.filter (fun row => decide (row.id ≠ id)) ∧
      (∀ row, row ∈ (recommendedStopRepository.Delete db Fault.none id).1.recommended_stops ↔
        row ∈ db.recommended_stops ∧ row.id ≠ id) ∧
      (recommendedStopRepository.Delete db Fault.none id).1.routes = db.routes ∧
      (recommendedStopRepository.Delete db Fault.none id).1.recommended_stops_id_seq =
        db.recommended_stops_id_seq ∧
      recommendedStopRepository.Delete (recommendedStopRepository.Delete db Fault.none id).1
          Fault.none id =
        ((recommendedStopRepository.Delete db Fault.none id).1, none)) := by
  refine ⟨⟨rfl, rfl, ?_, rfl, rfl, ?_⟩, ⟨rfl, rfl, ?_, rfl, rfl, ?_⟩⟩
  · intro row
    simp [routeRepository.Delete, sql.ExecContext, deleteRoute]
  · simp [routeRepository.Delete, sql.ExecContext, deleteRoute, List.filter_filter]
  · intro row
    simp [recommendedStopRepository.Delete, sql.ExecContext, deleteStop]
  · simp [recommendedStopRepository.Delete, sql.ExecContext, deleteStop, List.filter_filter]

/-! ## Update -/

/-- A list mapped by `g` is related row by row to the original by any relation
that holds between each row and its image. -/
theorem forall₂_map_of_forall {α : Type} (R : α → α → Prop) (g : α → α) (l : List α)
    (h : ∀ a ∈ l, R a (g a)) : List.Forall₂ R l (l.map g) := by
  induction l with
  | nil => exact List.Forall₂.nil
  | cons a rest ih =>
    exact List.Forall₂.cons (h a (List.mem_cons_self _ _))
      (ih fun b hb => h b (List.mem_cons_of_mem _ hb))

/-- C9: for a route whose path reads as a linestring, and without a fault,
`routeRepository.Update` returns nil; row by row, in the stored order, every
row keeps its id and created_at, a row whose id equals `route.ID` gets the
name, description and path of `route`, and every other row is unchanged; the
table of stops and its sequence are unchanged; and when no row has that id the
database is unchanged. -/
theorem C9_routeRepository_Update_frame (codec : GeometryCodec) (db : DB) (route : Route)
    (pts : List Point)
    (hpath : codec.geomFromText route.Path = some (Geometry.linestring pts)) :
    (routeRepository.Update codec db Fault.none route).2 = none ∧
    List.Forall₂
      (fun old new : RouteRow =>
        new.id = old.id ∧ new.created_at = old.created_at ∧
        (old.id = route.ID →
          new.name = route.Name ∧ new.description = route.Description ∧
            new.path = Geometry.linestring pts) ∧
        (old.id ≠ route.ID → new = old))
      db.routes (routeRepository.Update codec db Fault.none route).1.routes ∧
    (routeRepository.Update codec db Fault.none route).1.recommended_stops =
      db.recommended_stops ∧
    (routeRepository.Update codec db Fault.none route).1.recommended_stops_id_seq =
      db.recommended_stops_id_seq ∧
    ((∀ row ∈ db.routes, row.id ≠ route.ID) →
      routeRepository.Update codec db Fault.none route = (db, none)) := by
  have hrun : routeRepository.Update codec db Fault.none route =
      ({ db with
          routes := db.routes.map fun row =>
            if row.id = route.ID then
              { row with name := route.Name, description := route.Description,
                         path := Geometry.linestring pts }
            else row }, none) := by
    simp [routeRepository.Update, sql.ExecContext, updateRoute, lineFromText, hpath]
  rw [hrun]
  refine ⟨rfl, ?_, rfl, rfl, ?_⟩
  · apply forall₂_map_of_forall
    intro row _
    by_cases hid : row.id = route.ID
    · simp [hid]
    · simp [hid]
  · intro habsent
    have hmap : (db.routes.map fun row =>
        if row.id = route.ID then
          { row with name := route.Name, description := route.Description,
                     path := Geometry.linestring pts }
        else row) = db.routes := by
      conv_rhs => rw [← List.map_id db.routes]
      apply List.map_congr_left
      intro row hrow
      simp [habsent row hrow]
    rw [hmap]

/-- C9, at the sample table: route 1 is renamed and rerouted, route 2 stays. -/
theorem C9_routeRepository_Update_frame_witness :
    wktCodec.geomFromText "LINESTRING(5 5, 6 6)" =
      some (Geometry.linestring [(mkRat 5 1, mkRat 5 1), (mkRat 6 1, mkRat 6 1)]) ∧
    (routeRepository.Update wktCodec sampleDB Fault.none
      { ID := 1, Name := "Quay", Description := "new", Path := "LINESTRING(5 5, 6 6)",
        CreatedAt := 999 }).2 = none ∧
    List.Forall₂
      (fun old new : RouteRow =>
        new.id = old.id ∧ new.created_at = old.created_at ∧
        (old.id = 1 →
          new.name = "Quay" ∧ new.description = "new" ∧
            new.path = Geometry.linestring [(mkRat 5 1, mkRat 5 1), (mkRat 6 1, mkRat 6 1)]) ∧
        (old.id ≠ 1 → new = old))
      sampleDB.routes
      (routeRepository.Update wktCodec sampleDB Fault.none
        { ID := 1, Name := "Quay", Description := "new", Path := "LINESTRING(5 5, 6 6)",
          CreatedAt := 999 }).1.routes :=
  ⟨by decide,
   (C9_routeRepository_Update_frame wktCodec sampleDB
      { ID := 1, Name := "Quay", Description := "new", Path := "LINESTRING(5 5, 6 6)",
        CreatedAt := 999 }
      [(mkRat 5 1, mkRat 5 1), (mkRat 6 1, mkRat 6 1)] (by decide)).1,
   (C9_routeRepository_Update_frame wktCodec sampleDB
      { ID := 1, Name := "Quay", Description := "new", Path := "LINESTRING(5 5, 6 6)",
        CreatedAt := 999 }
      [(mkRat 5 1, mkRat 5 1), (mkRat 6 1, mkRat 6 1)] (by decide)).2.1⟩

/-- C10: for a stop whose location reads as a point, and without a fault,
`recommendedStopRepository.Update` returns nil; row by row every row keeps its
id, route_id and created_at, whatever `stop.RouteID` is; a row whose id equals
`stop.ID` gets the name, type, description and location of `stop`; every other
row is unchanged; and `GetByRouteID` of the route the row belonged to still
returns the stop, now with the new fields. -/
theorem C10_recommendedStopRepository_Update_keeps_route (codec : GeometryCodec) (db : DB)
    (stop : RecommendedStop) (p : Point)
    (hloc : codec.geomFromText stop.Location = some (Geometry.point p)) :
    (recommendedStopRepository.Update codec db Fault.none stop).2 = none ∧
    List.Forall₂
      (fun old new : StopRow =>
        new.id = old.id ∧ new.route_id = old.route_id ∧ new.created_at = old.created_at ∧
        (old.id = stop.ID →
          new.name = stop.Name ∧ new.type = stop.Type_ ∧ new.description = stop.Description ∧
            new.location = Geometry.point p) ∧
        (old.id ≠ stop.ID → new = old))
      db.recommended_stops
      (recommendedStopRepository.Update codec db Fault.none stop).1.recommended_stops ∧
    (recommendedStopRepository.Update codec db Fault.none stop).1.routes = db.routes ∧
    (∀ row ∈ db.recommended_stops, row.id = stop.ID →
      ({ ID := stop.ID, RouteID := row.route_id, Name := stop.Name, Type_ := stop.Type_,
         Description := stop.Description, Location := codec.asText (Geometry.point p),
         CreatedAt := row.created_at } : RecommendedStop) ∈
        (recommendedStopRepository.GetByRouteID codec
          (recommendedStopRepository.Update codec db Fault.none stop).1 Fault.none
          row.route_id).1) := by
  have hrun : recommendedStopRepository.Update codec db Fault.none stop =
      ({ db with
          recommended_stops := db.recommended_stops.map fun row =>
            if row.id = stop.ID then
              { row with name := stop.Name, type := stop.Type_,
                         description := stop.Description, location := Geometry.point p }
            else row }, none) := by
    simp [recommendedStopRepository.Update, sql.ExecContext, updateStop, pointFromText, hloc]
  rw [hrun]
  refine ⟨rfl, ?_, rfl, ?_⟩
  · apply forall₂_map_of_forall
    intro row _
    by_cases hid : row.id = stop.ID
    · simp [hid]
    · simp [hid]
  · intro row hrow hid
    rw [GetByRouteID_no_fault]
    simp only [selectStopsByRouteID, List.mem_map, List.mem_filter, decide_eq_true_eq]
    refine ⟨{ row with name := stop.Name, type := stop.Type_,
                       description := stop.Description, location := Geometry.point p },
      ⟨?_, rfl⟩, ?_⟩
    · exact ⟨row, hrow, by simp [hid]⟩
    · simp [StopRow.project, hid]

/-- C10, at the sample table: stop 1 of route 1 is updated with a struct that
names route 2, and stays a stop of route 1. -/
theorem C10_recommendedStopRepository_Update_keeps_route_witness :
    wktCodec.geomFromText "POINT(-122.35 37.75)" =
      some (Geometry.point (mkRat (-12235) 100, mkRat 3775 100)) ∧
    ({ ID := 1, RouteID := 1, Name := "Jetty", Type_ := "landmark", Description := "moved",
       Location := wktCodec.asText (Geometry.point (mkRat (-12235) 100, mkRat 3775 100)),
       CreatedAt := 12 } : RecommendedStop) ∈
      (recommendedStopRepository.GetByRouteID wktCodec
        (recommendedStopRepository.Update wktCodec sampleDB Fault.none
          { ID := 1, RouteID := 2, Name := "Jetty", Type_ := "landmark", Description := "moved",
            Location := "POINT(-122.35 37.75)", CreatedAt := 0 }).1 Fault.none 1).1 :=
  ⟨by decide,
   (C10_recommendedStopRepository_Update_keeps_route wktCodec sampleDB
      { ID := 1, RouteID := 2, Name := "Jetty", Type_ := "landmark", Description := "moved",
        Location := "POINT(-122.35 37.75)", CreatedAt := 0 }
      (mkRat (-12235) 100, mkRat 3775 100) (by decide)).2.2.2
      { id := 1, route_id := 1, name := "Pier", type := "viewpoint", description := "",
        location := Geometry.point (0, 0), created_at := 12 }
      (by decide) rfl⟩

/-! ## The handlers that update -/

/-- C11: the handlers behind `PUT /routes/:id` and `PUT /stops/:id` take the
row to update from the body alone.  Two requests with the same body and
different path parameters have the same effect on the database and the same
response; the route or stop handed to `Update` is the decoded body, whose ID
is the `id` field of the body and 0 when the body omits it.  On the sample
table, `PUT /routes/2` with a body naming id 1 changes route 1 and leaves
route 2 alone, and with a body without `id` it changes nothing and still
answers 200. -/
theorem C11_put_handlers_take_id_from_body (codec : GeometryCodec) (db : DB) (f : Fault)
    (p1 p2 : String → String) (id1 id2 : String) (rb : Option RouteBody) (sb : Option StopBody)
    (b : RouteBody) (s : StopBody) :
    FiberServer.updateRouteHandler codec db f { Params := p1, Body := rb } =
      FiberServer.updateRouteHandler codec db f { Params := p2, Body := rb } ∧
    FiberServer.updateRecommendedStopHandler codec db f { Params := p1, Body := sb } =
      FiberServer.updateRecommendedStopHandler codec db f { Params := p2, Body := sb } ∧
    FiberServer.updateRouteHandler codec db f (putRequest id1 rb) =
      FiberServer.updateRouteHandler codec db f (putRequest id2 rb) ∧
    FiberServer.updateRecommendedStopHandler codec db f (putRequest id1 sb) =
      FiberServer.updateRecommendedStopHandler codec db f (putRequest id2 sb) ∧
    ((FiberServer.updateRouteHandler codec db f (putRequest id1 (some b))).1 =
        (routeRepository.Update codec db f
          { ID := b.id.getD 0, Name := b.name.getD "", Description := b.description.getD "",
            Path := b.path.getD "", CreatedAt := b.created_at.getD 0 }).1 ∧
      (FiberServer.updateRouteHandler codec db f (putRequest id1 (some b))).2.status =
        if (routeRepository.Update codec db f b.parse).2 = none then 200 else 500) ∧
    ((FiberServer.updateRecommendedStopHandler codec db f (putRequest id1 (some s))).1 =
        (recommendedStopRepository.Update codec db f
          { ID := s.id.getD 0, RouteID := s.route_id.getD 0, Name := s.name.getD "",
            Type_ := s.type.getD "", Description := s.description.getD "",
            Location := s.location.getD "", CreatedAt := s.created_at.getD 0 }).1 ∧
      (FiberServer.updateRecommendedStopHandler codec db f (putRequest id1 (some s))).2.status =
        if (recommendedStopRepository.Update codec db f s.parse).2 = none then 200 else 500) ∧
    ((FiberServer.updateRouteHandler wktCodec sampleDB Fault.none
        (putRequest "2"
          (some { id := some 1, name := some "Quay", description := some "new",
                  path := some "LINESTRING(5 5, 6 6)", created_at := none }))).1.routes =
        [ { id := 1, name := "Quay", description := "new",
            path := Geometry.linestring [(5, 5), (6, 6)], created_at := 10 },
          { id := 2, name := "Ridge trail", description := "up the hill",
            path := Geometry.linestring [(0, 2), (3, 2)], created_at := 11 } ] ∧
      (FiberServer.updateRouteHandler wktCodec sampleDB Fault.none
        (putRequest "2"
          (some { id := none, name := some "Quay", description := some "new",
                  path := some "LINESTRING(5 5, 6 6)", created_at := none }))).1 = sampleDB ∧
      (FiberServer.updateRouteHandler wktCodec sampleDB Fault.none
        (putRequest "2"
          (some { id := none, name := some "Quay", description := some "new",
                  path := some "LINESTRING(5 5, 6 6)", created_at := none }))).2.status = 200) := by
  have hroute : ∀ c : Ctx RouteBody, c.Body = some b →
      (FiberServer.updateRouteHandler codec db f c).1 =
          (routeRepository.Update codec db f b.parse).1 ∧
        (FiberServer.updateRouteHandler codec db f c).2.status =
          if (routeRepository.Update codec db f b.parse).2 = none then 200 else 500 := by
    intro c hc
    simp only [FiberServer.updateRouteHandler, hc]
    rcases routeRepository.Update codec db f b.parse with ⟨db1, _ | e⟩ <;> simp
  have hstop : ∀ c : Ctx StopBody, c.Body = some s →
      (FiberServer.updateRecommendedStopHandler codec db f c).1 =
          (recommendedStopRepository.Update codec db f s.parse).1 ∧
        (FiberServer.updateRecommendedStopHandler codec db f c).2.status =
          if (recommendedStopRepository.Update codec db f s.parse).2 = none then 200
          else 500 := by
    intro c hc
    simp only [FiberServer.updateRecommendedStopHandler, hc]
    rcases recommendedStopRepository.Update codec db f s.parse with ⟨db1, _ | e⟩ <;> simp
  exact ⟨rfl, rfl, rfl, rfl, hroute (putRequest id1 (some b)) rfl,
    hstop (putRequest id1 (some s)) rfl, by decide, by decide, by decide⟩

end Cerene
